import Mathlib

/-!
Verification of the quant trading agent in `main.py`.

The agent is a single-file Python program: an HTTP-invoked cycle that loads a
persisted state, runs one decision cycle (`quant_agent_logic`), and saves the
state back.  The embedding below translates the program into Lean:

* Python floats become rationals (`ℚ`); all the constants of the program
  (`0.25`, `0.5`, `0.1`, `-0.15`, `0.20`, `7500`, `50`, `10000`) are exactly
  representable, so `ℚ` is a faithful model of the arithmetic actually
  performed on the reachable values.
* every call to `random.*` is replaced by an explicit draw handed to the
  function (record `Draws`); `Draws.valid` records the ranges the Python
  `random` calls can produce.
* log strings are modelled by the inductive `LogMsg`, one constructor per
  `log_messages.append(...)` site, carrying the data interpolated into the
  message.
* the state file is modelled by an `Option AgentState` argument (`none` =
  file missing or unparsable, which the source maps to the default state).

`quant_agent_logic` is written as the composition of the three blocks of the
source (adaptation check / exit logic / entry logic), each block translated
line by line.
-/

/-- `INITIAL_CAPITAL = 10000.00` (main.py line 9). -/
def INITIAL_CAPITAL : ℚ := 10000

/-- `LOSS_THRESHOLD_FOR_ADAPTATION = INITIAL_CAPITAL * 0.25` (line 10). -/
def LOSS_THRESHOLD_FOR_ADAPTATION : ℚ := INITIAL_CAPITAL * (25 / 100)

/-- `LOT_SIZE = 50` (line 13). -/
def LOT_SIZE : ℚ := 50

/-- Python `int(q)` on a float: truncation toward zero. -/
def pyInt (q : ℚ) : ℤ := if 0 ≤ q then ⌊q⌋ else ⌈q⌉

/-- One open position, as stored in `state['positions']` (lines 147-154). -/
structure Position where
  id : ℤ
  entry_cost : ℚ
  entry_premium : ℚ
  lots : ℤ
  type : String
  entry_time : String
deriving DecidableEq

/-- The agent's persisted state (lines 27-33). `strategy_version` is kept as a
rational because the source stores it as a float and compares it with `< 2.0`,
`== 1.0`, `== 2.0`. -/
structure AgentState where
  capital : ℚ
  strategy_version : ℚ
  total_losses : ℚ
  positions : List Position
  trade_id_counter : ℤ
deriving DecidableEq

/-- The default initial state built by `load_state` (lines 27-33). -/
def default_state : AgentState :=
  { capital := INITIAL_CAPITAL
    strategy_version := 1
    total_losses := 0
    positions := []
    trade_id_counter := 0 }

/-- `load_state` (lines 17-33): the file outcome is `some s` when the state
file exists and parses, `none` when it is missing or unreadable. -/
def load_state (file : Option AgentState) : AgentState :=
  match file with
  | some s => s
  | none => default_state

/-- The outcomes of every `random.*` call one decision cycle can make,
plus the two ambient strings (`order_id` built from `time.time()`,
`entry_time` from `datetime.now()`). -/
structure Draws where
  exitRand : ℚ
  pnlFrac : ℚ
  priceVol : ℚ
  premium : ℚ
  rejectRand : ℚ
  order_id : String
  entry_time : String
deriving DecidableEq

/-- The ranges the Python `random` calls produce: `random.random()` lies in
`[0,1)`, `random.uniform(a,b)` in `[a,b]`. -/
def Draws.valid (d : Draws) : Prop :=
  0 ≤ d.exitRand ∧ d.exitRand < 1 ∧
  -(15 / 100) ≤ d.pnlFrac ∧ d.pnlFrac ≤ 20 / 100 ∧
  -100 ≤ d.priceVol ∧ d.priceVol ≤ 100 ∧
  100 ≤ d.premium ∧ d.premium ≤ 200 ∧
  0 ≤ d.rejectRand ∧ d.rejectRand < 1

instance (d : Draws) : Decidable d.valid := by
  unfold Draws.valid
  infer_instance

/-- One log message per `log_messages.append(...)` site of
`quant_agent_logic`, carrying the interpolated data. -/
inductive LogMsg where
  | adaptationCritical (total_losses : ℚ)
  | switchingToV2
  | closeTrade (id : ℤ) (type : String) (pnl : ℚ)
  | dumbTrade (lots : ℤ)
  | smartTrade (lots : ℤ)
  | openTrade (id : ℤ) (capital : ℚ)
  | orderRejected (error : String)
deriving DecidableEq

/-- Is this log line the `"ERROR: Order rejected. ..."` line (line 159)?
No other `append` site of `quant_agent_logic` produces an error line. -/
def LogMsg.isError : LogMsg → Bool
  | .orderRejected _ => true
  | _ => false

/-- `get_live_nifty_price` (lines 65-71): `23000 + random.uniform(-100, 100)`. -/
def get_live_nifty_price (priceVol : ℚ) : ℚ :=
  23000 + priceVol

/-- Result dictionary of `place_order` (lines 82, 84-89). -/
inductive OrderResult where
  | EXECUTED (order_id : String) (entry_cost : ℚ) (entry_premium : ℚ)
  | REJECTED (error : String)
deriving DecidableEq

/-- `place_order` (lines 73-89): cost is `premium * lots * LOT_SIZE`; with
probability 0.1 (`rejectRand < 0.1`) the order is rejected. -/
def place_order (lots : ℤ) (premium rejectRand : ℚ) (order_id : String) :
    OrderResult :=
  let cost := premium * (lots : ℚ) * LOT_SIZE
  if rejectRand < 1 / 10 then
    .REJECTED "Simulated Slippage/Margin failure"
  else
    .EXECUTED order_id cost premium

/-- Block 1 of `quant_agent_logic` (lines 99-103): the adaptation check.
If `total_losses >= LOSS_THRESHOLD_FOR_ADAPTATION` and
`strategy_version < 2.0`, switch to 2.0, log two messages (the first formats
the pre-reset `total_losses`), and reset `total_losses` to 0. -/
def adaptStep (state : AgentState) : AgentState × List LogMsg :=
  if state.total_losses ≥ LOSS_THRESHOLD_FOR_ADAPTATION ∧
      state.strategy_version < 2 then
    ({ state with strategy_version := 2, total_losses := 0 },
     [.adaptationCritical state.total_losses, .switchingToV2])
  else
    (state, [])

/-- Block 2 of `quant_agent_logic` (lines 111-116): the exit logic.
If a position is open and the draw fires (`exitRand < 0.5`), pop the oldest
position, realise `PnL = entry_cost * pnlFrac`, credit `entry_cost + PnL`
back to capital, and add `abs(PnL) if PnL < 0 else 0` to `total_losses`. -/
def exitStep (state : AgentState) (exitRand pnlFrac : ℚ) :
    AgentState × List LogMsg :=
  match state.positions with
  | [] => (state, [])
  | pos :: rest =>
    if exitRand < 1 / 2 then
      let PnL := pos.entry_cost * pnlFrac
      ({ state with
          positions := rest
          capital := state.capital + pos.entry_cost + PnL
          total_losses := state.total_losses + (if PnL < 0 then |PnL| else 0) },
       [.closeTrade pos.id pos.type PnL])
    else
      (state, [])

/-- Lot sizing (lines 127-140): `lots_to_buy` starts at 1; strategy 1.0 takes
`max(1, int(available_capital / 7500))`, strategy 2.0 takes
`max(1, int(INITIAL_CAPITAL * 0.10 / 7500))`; any other version leaves 1. -/
def lotsForStrategy (strategy_version available_capital : ℚ) :
    ℤ × List LogMsg :=
  if strategy_version = 1 then
    let max_afford := available_capital / 7500
    let lots := max 1 (pyInt max_afford)
    (lots, [.dumbTrade lots])
  else if strategy_version = 2 then
    let MAX_RISK_CAPITAL := INITIAL_CAPITAL * (10 / 100)
    let lots := max 1 (pyInt (MAX_RISK_CAPITAL / 7500))
    (lots, [.smartTrade lots])
  else
    (1, [])

/-- Block 3 of `quant_agent_logic` (lines 120-159): the entry logic.
The price is always sampled; if no position is open, size the lots by
strategy and place an order; on `EXECUTED`, increment the trade counter,
append the new position and debit the entry cost; on `REJECTED`, log one
error line and change nothing. -/
def entryStep (state : AgentState) (priceVol premium rejectRand : ℚ)
    (order_id entry_time : String) : AgentState × List LogMsg :=
  let current_nifty_price := get_live_nifty_price priceVol
  let signal := if current_nifty_price > 23000 then "BUY_CE" else "BUY_PE"
  if state.positions.length = 0 then
    let sized := lotsForStrategy state.strategy_version state.capital
    let lots_to_buy := sized.1
    match place_order lots_to_buy premium rejectRand order_id with
    | .EXECUTED _ entry_cost entry_premium =>
      let counter := state.trade_id_counter + 1
      let new_position : Position :=
        { id := counter
          entry_cost := entry_cost
          entry_premium := entry_premium
          lots := lots_to_buy
          type := signal
          entry_time := entry_time }
      ({ state with
          trade_id_counter := counter
          positions := state.positions ++ [new_position]
          capital := state.capital - entry_cost },
       sized.2 ++ [.openTrade counter (state.capital - entry_cost)])
    | .REJECTED err =>
      (state, sized.2 ++ [.orderRejected err])
  else
    (state, [])

/-- `quant_agent_logic` (lines 93-161): the three blocks in sequence, log
messages appended in order. -/
def quant_agent_logic (state : AgentState) (d : Draws) :
    AgentState × List LogMsg :=
  let a := adaptStep state
  let e := exitStep a.1 d.exitRand d.pnlFrac
  let n := entryStep e.1 d.priceVol d.premium d.rejectRand d.order_id
    d.entry_time
  (n.1, a.2 ++ e.2 ++ n.2)

/-- Iterated decision cycles: one `quant_agent_logic` per invocation, fed the
successive draw outcomes. -/
def runCycles (state : AgentState) : List Draws → AgentState
  | [] => state
  | d :: ds => runCycles (quant_agent_logic state d).1 ds

/-- One line of the plain-text response of `quant_agent_entry`
(lines 183-185). -/
inductive ResponseLine where
  | header
  | msg (m : LogMsg)
  | finalCapital (c : ℚ)
deriving DecidableEq

/-- `quant_agent_entry` (lines 165-192): load the state (defaults on a
missing or unreadable file), run one cycle, save (the save outcome `saveOk`
is ignored by the source: a failure is caught and logged), and return the
log summary together with HTTP status 200. -/
def quant_agent_entry (file : Option AgentState) (d : Draws)
    (_saveOk : Bool) : AgentState × List ResponseLine × Nat :=
  let state := load_state file
  let r := quant_agent_logic state d
  (r.1,
   ResponseLine.header :: r.2.map ResponseLine.msg
     ++ [ResponseLine.finalCapital r.1.capital],
   200)

/-! ## Concrete instantiation data -/

/-- A concrete open position used to instantiate the theorems below. -/
def posA : Position :=
  { id := 1
    entry_cost := 5000
    entry_premium := 100
    lots := 1
    type := "BUY_CE"
    entry_time := "T0" }

/-- A draw outcome on which the exit draw fails and the order executes. -/
def drawsExec : Draws :=
  { exitRand := 9 / 10
    pnlFrac := 0
    priceVol := 0
    premium := 100
    rejectRand := 1 / 2
    order_id := "ORD"
    entry_time := "T" }

/-- A draw outcome on which the exit draw fails and the order is rejected. -/
def drawsRej : Draws :=
  { exitRand := 9 / 10
    pnlFrac := 0
    priceVol := 0
    premium := 100
    rejectRand := 0
    order_id := "ORD"
    entry_time := "T" }

/-- A draw outcome on which the exit draw fires with a losing PnL fraction
and the subsequent order executes. -/
def drawsLoss : Draws :=
  { exitRand := 0
    pnlFrac := -(1 / 10)
    priceVol := 0
    premium := 150
    rejectRand := 1 / 2
    order_id := "ORD"
    entry_time := "T" }

/-- A draw outcome on which the exit draw fires with a winning PnL fraction
and the subsequent order executes. -/
def drawsWin : Draws :=
  { exitRand := 0
    pnlFrac := 1 / 10
    priceVol := 50
    premium := 100
    rejectRand := 1 / 2
    order_id := "ORD"
    entry_time := "T" }

/-- A state over the adaptation threshold (strategy 1, no open position). -/
def stateOverThreshold : AgentState :=
  { capital := 10000
    strategy_version := 1
    total_losses := 2500
    positions := []
    trade_id_counter := 0 }

/-- A state over the adaptation threshold with one open position. -/
def stateOverThresholdPos : AgentState :=
  { capital := 10000
    strategy_version := 1
    total_losses := 2500
    positions := [posA]
    trade_id_counter := 5 }

/-- A strategy-2 state with one open position. -/
def stateOnePos : AgentState :=
  { capital := 10000
    strategy_version := 2
    total_losses := 0
    positions := [posA]
    trade_id_counter := 3 }

/-- A strategy-2 state with zero capital and no open position. -/
def stateBroke : AgentState :=
  { capital := 0
    strategy_version := 2
    total_losses := 0
    positions := []
    trade_id_counter := 0 }

/-! ## Helper lemmas about the individual blocks -/

lemma quant_agent_logic_fst (s : AgentState) (d : Draws) :
    (quant_agent_logic s d).1 =
      (entryStep (exitStep (adaptStep s).1 d.exitRand d.pnlFrac).1
        d.priceVol d.premium d.rejectRand d.order_id d.entry_time).1 := rfl

lemma quant_agent_logic_snd (s : AgentState) (d : Draws) :
    (quant_agent_logic s d).2 =
      (adaptStep s).2 ++ (exitStep (adaptStep s).1 d.exitRand d.pnlFrac).2 ++
      (entryStep (exitStep (adaptStep s).1 d.exitRand d.pnlFrac).1
        d.priceVol d.premium d.rejectRand d.order_id d.entry_time).2 := rfl

lemma adaptStep_capital (s : AgentState) : (adaptStep s).1.capital = s.capital := by
  unfold adaptStep
  split <;> rfl

lemma adaptStep_positions (s : AgentState) :
    (adaptStep s).1.positions = s.positions := by
  unfold adaptStep
  split <;> rfl

lemma adaptStep_counter (s : AgentState) :
    (adaptStep s).1.trade_id_counter = s.trade_id_counter := by
  unfold adaptStep
  split <;> rfl

lemma exitStep_counter (s : AgentState) (er pf : ℚ) :
    (exitStep s er pf).1.trade_id_counter = s.trade_id_counter := by
  unfold exitStep
  split
  · rfl
  · split <;> rfl

lemma exitStep_version (s : AgentState) (er pf : ℚ) :
    (exitStep s er pf).1.strategy_version = s.strategy_version := by
  unfold exitStep
  split
  · rfl
  · split <;> rfl

lemma exitStep_total_losses_mono (s : AgentState) (er pf : ℚ) :
    s.total_losses ≤ (exitStep s er pf).1.total_losses := by
  unfold exitStep
  split
  · exact le_refl _
  · next pos rest _ =>
    split
    · show s.total_losses ≤ s.total_losses +
        (if pos.entry_cost * pf < 0 then |pos.entry_cost * pf| else 0)
      have h0 : (0:ℚ) ≤ if pos.entry_cost * pf < 0 then |pos.entry_cost * pf| else 0 := by
        split
        · exact abs_nonneg _
        · exact le_refl 0
      linarith
    · exact le_refl _

lemma entryStep_version (s : AgentState) (pv pr rr : ℚ) (oid et : String) :
    (entryStep s pv pr rr oid et).1.strategy_version = s.strategy_version := by
  unfold entryStep place_order
  split
  · split <;> rfl
  · rfl

lemma entryStep_total_losses (s : AgentState) (pv pr rr : ℚ) (oid et : String) :
    (entryStep s pv pr rr oid et).1.total_losses = s.total_losses := by
  unfold entryStep place_order
  split
  · split <;> rfl
  · rfl

lemma entryStep_counter_mono (s : AgentState) (pv pr rr : ℚ) (oid et : String) :
    s.trade_id_counter ≤ (entryStep s pv pr rr oid et).1.trade_id_counter := by
  unfold entryStep place_order
  split
  · split
    · exact le_refl _
    · show s.trade_id_counter ≤ s.trade_id_counter + 1
      omega
  · exact le_refl _

lemma max_one_pyInt (q : ℚ) : max 1 (pyInt q) = max 1 ⌊q⌋ := by
  unfold pyInt
  split
  · rfl
  · next h =>
    push_neg at h
    have h1 : ⌈q⌉ ≤ 0 := Int.ceil_le.mpr (by exact_mod_cast h.le)
    have h2 : ⌊q⌋ ≤ ⌈q⌉ := Int.floor_le_ceil q
    rw [max_eq_left (by omega), max_eq_left (by omega)]

lemma exitStep_nil (s : AgentState) (er pf : ℚ) (h : s.positions = []) :
    exitStep s er pf = (s, []) := by
  unfold exitStep
  rw [h]

lemma exitStep_cons (s : AgentState) (pos : Position) (rest : List Position)
    (er pf : ℚ) (h : s.positions = pos :: rest) (he : er < 1 / 2) :
    exitStep s er pf =
      ({ s with
          positions := rest
          capital := s.capital + pos.entry_cost + pos.entry_cost * pf
          total_losses := s.total_losses +
            (if pos.entry_cost * pf < 0 then |pos.entry_cost * pf| else 0) },
       [.closeTrade pos.id pos.type (pos.entry_cost * pf)]) := by
  unfold exitStep
  simp only [h]
  rw [if_pos he]

lemma entryStep_rejected (s : AgentState) (pv pr rr : ℚ) (oid et : String)
    (hpos : s.positions = []) (hrej : rr < 1 / 10) :
    entryStep s pv pr rr oid et =
      (s, (lotsForStrategy s.strategy_version s.capital).2 ++
        [.orderRejected "Simulated Slippage/Margin failure"]) := by
  unfold entryStep place_order
  simp only [hpos, List.length_nil, if_pos hrej]
  rfl

lemma exitStep_positions_le (s : AgentState) (er pf : ℚ) :
    (exitStep s er pf).1.positions.length ≤ s.positions.length := by
  unfold exitStep
  split
  · exact le_refl _
  · next pos rest heq =>
    split
    · show rest.length ≤ s.positions.length
      rw [heq, List.length_cons]
      omega
    · exact le_refl _

lemma entryStep_positions_le (s : AgentState) (pv pr rr : ℚ) (oid et : String)
    (h : s.positions.length ≤ 1) :
    (entryStep s pv pr rr oid et).1.positions.length ≤ 1 := by
  unfold entryStep place_order
  split
  · next h0 =>
    split
    · exact h
    · have h0' : s.positions = [] := List.length_eq_zero.mp h0
      simp [h0']
  · exact h

lemma quant_agent_logic_positions_le (s : AgentState) (d : Draws)
    (h : s.positions.length ≤ 1) :
    (quant_agent_logic s d).1.positions.length ≤ 1 := by
  rw [quant_agent_logic_fst]
  apply entryStep_positions_le
  calc (exitStep (adaptStep s).1 d.exitRand d.pnlFrac).1.positions.length
      ≤ (adaptStep s).1.positions.length := exitStep_positions_le _ _ _
    _ = s.positions.length := by rw [adaptStep_positions]
    _ ≤ 1 := h

lemma quant_agent_logic_version (s : AgentState) (d : Draws) :
    (quant_agent_logic s d).1.strategy_version = s.strategy_version ∨
    (s.strategy_version < 2 ∧ (quant_agent_logic s d).1.strategy_version = 2) := by
  rw [quant_agent_logic_fst, entryStep_version, exitStep_version]
  unfold adaptStep
  split
  · next h => exact Or.inr ⟨h.2, rfl⟩
  · exact Or.inl rfl

lemma runCycles_version (s : AgentState) (ds : List Draws) :
    (runCycles s ds).strategy_version = s.strategy_version ∨
    (s.strategy_version < 2 ∧ (runCycles s ds).strategy_version = 2) := by
  induction ds generalizing s with
  | nil => exact Or.inl rfl
  | cons d ds ih =>
    rcases quant_agent_logic_version s d with hstep | hstep
    · rcases ih (quant_agent_logic s d).1 with h | h
      · refine Or.inl ?_
        show (runCycles (quant_agent_logic s d).1 ds).strategy_version = _
        rw [h, hstep]
      · refine Or.inr ⟨by rw [← hstep]; exact h.1, ?_⟩
        exact h.2
    · rcases ih (quant_agent_logic s d).1 with h | h
      · refine Or.inr ⟨hstep.1, ?_⟩
        show (runCycles (quant_agent_logic s d).1 ds).strategy_version = 2
        rw [h, hstep.2]
      · rw [hstep.2] at h
        exact absurd h.1 (by norm_num)

lemma adaptStep_no_error (s : AgentState) :
    (adaptStep s).2.filter (fun m => m.isError) = [] := by
  unfold adaptStep
  split <;> rfl

lemma exitStep_no_error (s : AgentState) (er pf : ℚ) :
    (exitStep s er pf).2.filter (fun m => m.isError) = [] := by
  unfold exitStep
  split
  · rfl
  · split <;> rfl

lemma lotsForStrategy_no_error (v c : ℚ) :
    (lotsForStrategy v c).2.filter (fun m => m.isError) = [] := by
  unfold lotsForStrategy
  split
  · rfl
  · split <;> rfl

/-! ## The claims -/

/-- Claim C1, counterexample: a persisted state over the loss threshold with
strategy version 1 and one open position, together with a valid draw outcome
that closes that position at a loss, ends the decision cycle with
`strategy_version = 2` but `total_losses ≠ 0`: the exit step re-accumulates
the loss after the adaptation step's reset. -/
theorem C1_counterexample :
    stateOverThresholdPos.total_losses ≥ LOSS_THRESHOLD_FOR_ADAPTATION ∧
    stateOverThresholdPos.strategy_version = 1 ∧
    drawsLoss.valid ∧
    (quant_agent_logic stateOverThresholdPos drawsLoss).1.strategy_version = 2 ∧
    (quant_agent_logic stateOverThresholdPos drawsLoss).1.total_losses ≠ 0 := by
  norm_num [stateOverThresholdPos, posA, drawsLoss, Draws.valid,
    quant_agent_logic, adaptStep, exitStep, entryStep, lotsForStrategy,
    place_order, get_live_nifty_price, pyInt, LOSS_THRESHOLD_FOR_ADAPTATION,
    INITIAL_CAPITAL, LOT_SIZE, max_def]

/-- Claim C1 (amended): for every persisted state with
`total_losses ≥ 25%` of the initial capital and `strategy_version = 1`,
one decision cycle yields `strategy_version = 2` for every outcome of the
random draws; and when no position is open it also yields
`total_losses = 0` (a position closed at a loss in the same cycle would be
re-added to `total_losses` after the reset). -/
theorem C1_adaptation (s : AgentState) (d : Draws)
    (hl : s.total_losses ≥ LOSS_THRESHOLD_FOR_ADAPTATION)
    (hv : s.strategy_version = 1) :
    (quant_agent_logic s d).1.strategy_version = 2 ∧
    (s.positions = [] → (quant_agent_logic s d).1.total_losses = 0) := by
  have hcond : s.total_losses ≥ LOSS_THRESHOLD_FOR_ADAPTATION ∧
      s.strategy_version < 2 := ⟨hl, by rw [hv]; norm_num⟩
  have ha : (adaptStep s).1 =
      { s with strategy_version := 2, total_losses := 0 } := by
    unfold adaptStep
    rw [if_pos hcond]
  constructor
  · rw [quant_agent_logic_fst, entryStep_version, exitStep_version, ha]
  · intro hpos
    have h1 : (adaptStep s).1.positions = [] := by
      rw [adaptStep_positions]
      exact hpos
    rw [quant_agent_logic_fst, entryStep_total_losses, exitStep_nil _ _ _ h1, ha]

/-- Witness for C1 (amended) at a concrete over-threshold state with no open
position. -/
theorem C1_adaptation_witness :
    stateOverThreshold.total_losses ≥ LOSS_THRESHOLD_FOR_ADAPTATION ∧
    stateOverThreshold.strategy_version = 1 ∧
    ((quant_agent_logic stateOverThreshold drawsExec).1.strategy_version = 2 ∧
      (stateOverThreshold.positions = [] →
        (quant_agent_logic stateOverThreshold drawsExec).1.total_losses = 0)) :=
  ⟨by norm_num [stateOverThreshold, LOSS_THRESHOLD_FOR_ADAPTATION,
      INITIAL_CAPITAL],
   by norm_num [stateOverThreshold],
   C1_adaptation stateOverThreshold drawsExec
     (by norm_num [stateOverThreshold, LOSS_THRESHOLD_FOR_ADAPTATION,
       INITIAL_CAPITAL])
     (by norm_num [stateOverThreshold])⟩

/-- Claim C2, counterexample: with exactly one open position and the exit
draw firing on a valid draw outcome, the decision cycle does not end with the
claimed capital nor with an empty positions list: the subsequent entry step
executes an order, appending a new position and debiting its entry cost. -/
theorem C2_counterexample :
    stateOnePos.positions = [posA] ∧ drawsWin.valid ∧
    drawsWin.exitRand < 1 / 2 ∧
    (quant_agent_logic stateOnePos drawsWin).1.positions ≠ [] ∧
    (quant_agent_logic stateOnePos drawsWin).1.capital ≠
      stateOnePos.capital + posA.entry_cost +
        posA.entry_cost * drawsWin.pnlFrac := by
  norm_num [stateOnePos, posA, drawsWin, Draws.valid, quant_agent_logic,
    adaptStep, exitStep, entryStep, lotsForStrategy, place_order,
    get_live_nifty_price, pyInt, LOSS_THRESHOLD_FOR_ADAPTATION,
    INITIAL_CAPITAL, LOT_SIZE, max_def]

/-- Claim C2 (amended): when the positions list holds exactly one position
and the exit draw fires, the cycle's exit step updates capital by
`entry_cost + PnL` with `PnL = entry_cost * pnlFrac`, updates `total_losses`
by `max 0 (-PnL)`, and leaves the positions list empty; the cycle's later
entry step may then open a new position and debit capital again. -/
theorem C2_exit_close (s : AgentState) (p : Position) (er pf : ℚ)
    (hp : s.positions = [p]) (he : er < 1 / 2) :
    (exitStep s er pf).1.capital = s.capital + p.entry_cost +
      p.entry_cost * pf ∧
    (exitStep s er pf).1.total_losses = s.total_losses +
      max 0 (-(p.entry_cost * pf)) ∧
    (exitStep s er pf).1.positions = [] := by
  rw [exitStep_cons s p [] er pf hp he]
  refine ⟨rfl, ?_, rfl⟩
  show s.total_losses +
    (if p.entry_cost * pf < 0 then |p.entry_cost * pf| else 0) = _
  congr 1
  rcases lt_or_le (p.entry_cost * pf) 0 with h | h
  · rw [if_pos h, abs_of_neg h, max_eq_right (by linarith)]
  · rw [if_neg (not_lt.mpr h), max_eq_left (by linarith)]

/-- Witness for C2 (amended) at a concrete one-position state and a winning
PnL fraction. -/
theorem C2_exit_close_witness :
    stateOnePos.positions = [posA] ∧ ((0:ℚ) < 1 / 2) ∧
    ((exitStep stateOnePos 0 (1/10)).1.capital = stateOnePos.capital +
        posA.entry_cost + posA.entry_cost * (1/10) ∧
      (exitStep stateOnePos 0 (1/10)).1.total_losses =
        stateOnePos.total_losses + max 0 (-(posA.entry_cost * (1/10))) ∧
      (exitStep stateOnePos 0 (1/10)).1.positions = []) :=
  ⟨by norm_num [stateOnePos], by norm_num,
   C2_exit_close stateOnePos posA 0 (1/10) (by norm_num [stateOnePos])
     (by norm_num)⟩

/-- Claim C3: when the entry branch runs (no position open after the exit
step) and the order is rejected, the cycle leaves the positions list and the
capital unchanged from the entry step's input, and the cycle's log output
holds exactly one error line. -/
theorem C3_rejected_order (s : AgentState) (d : Draws)
    (hpos : (exitStep (adaptStep s).1 d.exitRand d.pnlFrac).1.positions = [])
    (hrej : d.rejectRand < 1 / 10) :
    (quant_agent_logic s d).1.positions = [] ∧
    (quant_agent_logic s d).1.capital =
      (exitStep (adaptStep s).1 d.exitRand d.pnlFrac).1.capital ∧
    ((quant_agent_logic s d).2.filter (fun m => m.isError)).length = 1 := by
  have hE := entryStep_rejected
    (exitStep (adaptStep s).1 d.exitRand d.pnlFrac).1
    d.priceVol d.premium d.rejectRand d.order_id d.entry_time hpos hrej
  refine ⟨?_, ?_, ?_⟩
  · rw [quant_agent_logic_fst, hE]
    exact hpos
  · rw [quant_agent_logic_fst, hE]
  · rw [quant_agent_logic_snd, hE]
    simp [List.filter_append, adaptStep_no_error, exitStep_no_error,
      lotsForStrategy_no_error]
    rfl

/-- Witness for C3 at the default state and a draw whose order is
rejected. -/
theorem C3_rejected_order_witness :
    (exitStep (adaptStep default_state).1 drawsRej.exitRand
      drawsRej.pnlFrac).1.positions = [] ∧
    drawsRej.rejectRand < 1 / 10 ∧
    ((quant_agent_logic default_state drawsRej).1.positions = [] ∧
      (quant_agent_logic default_state drawsRej).1.capital =
        (exitStep (adaptStep default_state).1 drawsRej.exitRand
          drawsRej.pnlFrac).1.capital ∧
      ((quant_agent_logic default_state drawsRej).2.filter
        (fun m => m.isError)).length = 1) :=
  ⟨by norm_num [default_state, drawsRej, adaptStep, exitStep,
      LOSS_THRESHOLD_FOR_ADAPTATION, INITIAL_CAPITAL],
   by norm_num [drawsRej],
   C3_rejected_order default_state drawsRej
     (by norm_num [default_state, drawsRej, adaptStep, exitStep,
       LOSS_THRESHOLD_FOR_ADAPTATION, INITIAL_CAPITAL])
     (by norm_num [drawsRej])⟩

/-- Claim C4: in the entry branch the lot size is computed by strategy:
under strategy version 1 it is `max(1, floor(capital / 7500))`, under
strategy version 2 it is `max(1, floor((10% of initial capital) / 7500))`;
in particular version 2 with capital 10000 gives 1 lot and version 1 with
capital 15000 gives 2 lots.  (The source truncates with Python `int`, which
agrees with `floor` under the outer `max 1`.) -/
theorem C4_lot_sizing (c : ℚ) :
    (lotsForStrategy 1 c).1 = max 1 ⌊c / 7500⌋ ∧
    (lotsForStrategy 2 c).1 = max 1 ⌊INITIAL_CAPITAL * (10 / 100) / 7500⌋ ∧
    (lotsForStrategy 2 10000).1 = 1 ∧
    (lotsForStrategy 1 15000).1 = 2 := by
  refine ⟨?_, ?_, ?_, ?_⟩
  · show max 1 (pyInt (c / 7500)) = _
    exact max_one_pyInt _
  · show max 1 (pyInt (INITIAL_CAPITAL * (10 / 100) / 7500)) = _
    exact max_one_pyInt _
  · norm_num [lotsForStrategy, pyInt, INITIAL_CAPITAL, max_def]
  · norm_num [lotsForStrategy, pyInt, INITIAL_CAPITAL, max_def]

/-- Claim C5: every state reachable from the default initial state by any
number of decision cycles, under any sequence of draw outcomes, has at most
one open position. -/
theorem C5_at_most_one_position (ds : List Draws) :
    (runCycles default_state ds).positions.length ≤ 1 := by
  have key : ∀ (ds : List Draws) (s : AgentState), s.positions.length ≤ 1 →
      (runCycles s ds).positions.length ≤ 1 := by
    intro ds
    induction ds with
    | nil =>
      intro s hs
      exact hs
    | cons d ds ih =>
      intro s hs
      exact ih _ (quant_agent_logic_positions_le s d hs)
  exact key ds default_state (by norm_num [default_state])

/-- Claim C6: one decision cycle never decreases `trade_id_counter`, for
every input state and every outcome of the draws and order results. -/
theorem C6_counter_monotone (s : AgentState) (d : Draws) :
    s.trade_id_counter ≤ (quant_agent_logic s d).1.trade_id_counter := by
  rw [quant_agent_logic_fst]
  calc s.trade_id_counter
      = (adaptStep s).1.trade_id_counter := (adaptStep_counter s).symm
    _ = (exitStep (adaptStep s).1 d.exitRand
          d.pnlFrac).1.trade_id_counter := (exitStep_counter _ _ _).symm
    _ ≤ _ := entryStep_counter_mono _ _ _ _ _ _

/-- Claim C7: within one cycle `total_losses` is set to 0 exactly by the
v1-to-v2 transition: when the adaptation condition holds the adaptation step
yields `strategy_version = 2` and `total_losses = 0`; when it does not hold
the adaptation step changes nothing; and the rest of the cycle only adds
non-negative loss amounts on top of the adaptation step's output. -/
theorem C7_losses_reset (s : AgentState) (d : Draws) :
    ((s.total_losses ≥ LOSS_THRESHOLD_FOR_ADAPTATION ∧
        s.strategy_version < 2) →
      (adaptStep s).1.strategy_version = 2 ∧
        (adaptStep s).1.total_losses = 0) ∧
    (¬(s.total_losses ≥ LOSS_THRESHOLD_FOR_ADAPTATION ∧
        s.strategy_version < 2) →
      (adaptStep s).1 = s) ∧
    (adaptStep s).1.total_losses ≤ (quant_agent_logic s d).1.total_losses := by
  refine ⟨?_, ?_, ?_⟩
  · intro h
    unfold adaptStep
    rw [if_pos h]
    exact ⟨rfl, rfl⟩
  · intro h
    unfold adaptStep
    rw [if_neg h]
  · rw [quant_agent_logic_fst, entryStep_total_losses]
    exact exitStep_total_losses_mono _ _ _

/-- Claim C8: the strategy switch is one-way and one-shot.  For every state
whose `strategy_version` is one of the data model's two values, and every
sequence of decision cycles: a version-2 state stays at version 2 forever,
and otherwise the version either never changes or changes from 1 to 2. -/
theorem C8_one_way_switch (s : AgentState) (ds : List Draws)
    (hv : s.strategy_version = 1 ∨ s.strategy_version = 2) :
    (s.strategy_version = 2 → (runCycles s ds).strategy_version = 2) ∧
    ((runCycles s ds).strategy_version = s.strategy_version ∨
      (s.strategy_version = 1 ∧ (runCycles s ds).strategy_version = 2)) := by
  rcases runCycles_version s ds with h | h
  · exact ⟨fun h2 => by rw [h, h2], Or.inl h⟩
  · refine ⟨fun h2 => ?_, ?_⟩
    · rw [h2] at h
      exact absurd h.1 (by norm_num)
    · rcases hv with h1 | h2
      · exact Or.inr ⟨h1, h.2⟩
      · rw [h2] at h
        exact absurd h.1 (by norm_num)

/-- Witness for C8 at the default state and a one-cycle draw sequence. -/
theorem C8_one_way_switch_witness :
    (default_state.strategy_version = 1 ∨
      default_state.strategy_version = 2) ∧
    ((default_state.strategy_version = 2 →
        (runCycles default_state [drawsExec]).strategy_version = 2) ∧
      ((runCycles default_state [drawsExec]).strategy_version =
          default_state.strategy_version ∨
        (default_state.strategy_version = 1 ∧
          (runCycles default_state [drawsExec]).strategy_version = 2))) :=
  ⟨Or.inl (by norm_num [default_state]),
   C8_one_way_switch default_state [drawsExec]
     (Or.inl (by norm_num [default_state]))⟩

/-- Claim C9: for every state-file outcome, every draw outcome and every
save outcome, the HTTP entry point returns its log summary with status 200,
and the save outcome does not affect the returned value at all. -/
theorem C9_always_200 (file : Option AgentState) (d : Draws)
    (saveOk : Bool) :
    (quant_agent_entry file d saveOk).2.2 = 200 ∧
    quant_agent_entry file d saveOk = quant_agent_entry file d true :=
  ⟨rfl, rfl⟩

/-- Claim C10: `capital ≥ 0` is not an invariant: there is a state with
non-negative capital and a valid draw outcome on which one decision cycle
executes an entry order without an affordability check and returns a state
with negative capital. -/
theorem C10_capital_negative :
    ∃ (s : AgentState) (d : Draws), 0 ≤ s.capital ∧ d.valid ∧
      (quant_agent_logic s d).1.capital < 0 :=
  ⟨stateBroke, drawsExec, by
    norm_num [stateBroke, drawsExec, Draws.valid, quant_agent_logic,
      adaptStep, exitStep, entryStep, lotsForStrategy, place_order,
      get_live_nifty_price, pyInt, LOSS_THRESHOLD_FOR_ADAPTATION,
      INITIAL_CAPITAL, LOT_SIZE, max_def]⟩
